import Mathlib

/-!
Verification of the plotly-panel extension core: the message Translator
(`ParsePlotlyMessage` in src/messages.ts), the latest-message Selector and
the theme/autosize layout merge of the two panel variants (src/index.ts),
and the valid-topic-name list computation.

JavaScript JSON values are modelled by the inductive `Json`; `JSON.parse`
is modelled by the executable recursive-descent parser `jsonParse`
(numbers keep their literal text, so no floating-point semantics is
involved).  JavaScript objects are association lists; a property write
(`output.autosize = true`) is modelled by `setProp`.
-/

/-- A JavaScript JSON value.  Numbers keep their source lexeme, since no
claim inspects numeric values. -/
inductive Json where
  | null
  | bool (b : Bool)
  | num (lit : String)
  | str (s : String)
  | arr (elems : List Json)
  | obj (fields : List (String × Json))

/-- Whether a decoded JSON value is an array (`Array.isArray` in JS). -/
def Json.isArr : Json → Bool
  | Json.arr _ => true
  | _ => false

/-- Whether a decoded JSON value is an object. -/
def Json.isObj : Json → Bool
  | Json.obj _ => true
  | _ => false

/-- The opening-brace character, written numerically. -/
def lbrace : Char := Char.ofNat 123

/-- The closing-brace character, written numerically. -/
def rbrace : Char := Char.ofNat 125

/-- JSON whitespace. -/
def isJsonWs (c : Char) : Bool :=
  c = ' ' || c = '\t' || c = '\n' || c = '\r'

/-- Drop leading JSON whitespace. -/
def skipWs : List Char → List Char
  | [] => []
  | c :: rest => if isJsonWs c then skipWs rest else c :: rest

/-- Whether a character is a hexadecimal digit. -/
def isHexDigitChar (c : Char) : Bool :=
  c.isDigit || ('a' ≤ c && c ≤ 'f') || ('A' ≤ c && c ≤ 'F')

/-- Numeric value of a hexadecimal digit. -/
def hexVal (c : Char) : Nat :=
  if c.isDigit then c.toNat - 48
  else if 'a' ≤ c && c ≤ 'f' then c.toNat - 87
  else if 'A' ≤ c && c ≤ 'F' then c.toNat - 55
  else 0

/-- Fuel-bounded worker for `parseStrBody`: parse the character list of a
JSON string body after the opening quote, returning the decoded string and
the remaining input. -/
def parseStrBodyF : Nat → List Char → Option (String × List Char)
  | 0, _ => none
  | _, [] => none
  | Nat.succ fuel, c :: rest =>
    if c = '"' then
      some ("", rest)
    else if c = '\\' then
      match rest with
      | [] => none
      | e :: rest2 =>
        let esc : Option (Char × List Char) :=
          if e = '"' then some ('"', rest2)
          else if e = '\\' then some ('\\', rest2)
          else if e = '/' then some ('/', rest2)
          else if e = 'b' then some ('\x08', rest2)
          else if e = 'f' then some ('\x0c', rest2)
          else if e = 'n' then some ('\n', rest2)
          else if e = 'r' then some ('\r', rest2)
          else if e = 't' then some ('\t', rest2)
          else if e = 'u' then
            match rest2 with
            | h1 :: h2 :: h3 :: h4 :: rest3 =>
              if isHexDigitChar h1 && isHexDigitChar h2 &&
                  isHexDigitChar h3 && isHexDigitChar h4 then
                let v := 4096 * hexVal h1 + 256 * hexVal h2 + 16 * hexVal h3 + hexVal h4
                some (Char.ofNat v, rest3)
              else none
            | _ => none
          else none
        match esc with
        | some (d, rest3) =>
          match parseStrBodyF fuel rest3 with
          | some (s, rest4) => some (⟨d :: s.data⟩, rest4)
          | none => none
        | none => none
    else
      match parseStrBodyF fuel rest with
      | some (s, rest2) => some (⟨c :: s.data⟩, rest2)
      | none => none

/-- Parse a JSON string body; each step consumes at least one character,
so the input length bounds the recursion. -/
def parseStrBody (cs : List Char) : Option (String × List Char) :=
  parseStrBodyF (cs.length + 1) cs

/-- Take the longest prefix of decimal digits. -/
def takeDigits : List Char → List Char × List Char
  | [] => ([], [])
  | c :: rest =>
    if c.isDigit then
      let (ds, r) := takeDigits rest
      (c :: ds, r)
    else ([], c :: rest)

/-- Parse an optional JSON fraction and exponent, returning the consumed
characters and the remaining input. -/
def parseFracExp (cs : List Char) : List Char × List Char :=
  let (frac, cs1) :=
    match cs with
    | '.' :: d :: rest =>
      if d.isDigit then
        let (ds, r) := takeDigits rest
        (('.' : Char) :: d :: ds, r)
      else ([], '.' :: d :: rest)
    | other => ([], other)
  let (ex, cs2) :=
    match cs1 with
    | e :: rest =>
      if e = 'e' || e = 'E' then
        match rest with
        | s :: d :: r2 =>
          if (s = '+' || s = '-') && d.isDigit then
            let (ds, r3) := takeDigits r2
            ([e, s, d] ++ ds, r3)
          else if s.isDigit then
            let (ds, r3) := takeDigits (d :: r2)
            ([e, s] ++ ds, r3)
          else ([], e :: s :: d :: r2)
        | [s] =>
          if s.isDigit then ([e, s], []) else ([], [e, s])
        | [] => ([], [e])
      else ([], e :: rest)
    | [] => ([], [])
  (frac ++ ex, cs2)

/-- Parse a JSON number lexeme starting at the current position, following
the JSON grammar: optional minus, integer part without leading zeros,
optional fraction, optional exponent.  Returns the lexeme text. -/
def parseNumber (cs : List Char) : Option (String × List Char) :=
  let (neg, cs1) :=
    match cs with
    | '-' :: rest => ([('-' : Char)], rest)
    | other => ([], other)
  match cs1 with
  | [] => none
  | c :: rest =>
    if c = '0' then
      let (fr, cs2) := parseFracExp rest
      some (⟨neg ++ [c] ++ fr⟩, cs2)
    else if c.isDigit then
      let (ds, cs2) := takeDigits rest
      let (fr, cs3) := parseFracExp cs2
      some (⟨neg ++ [c] ++ ds ++ fr⟩, cs3)
    else none

mutual

/-- Fuel-bounded recursive-descent parser for one JSON value, modelling
`JSON.parse`.  Consumes leading whitespace, returns the value and the
remaining input. -/
def parseVal : Nat → List Char → Option (Json × List Char)
  | 0, _ => none
  | Nat.succ fuel, cs =>
    match skipWs cs with
    | [] => none
    | c :: rest =>
      if c = 'n' then
        match rest with
        | 'u' :: 'l' :: 'l' :: rest2 => some (Json.null, rest2)
        | _ => none
      else if c = 't' then
        match rest with
        | 'r' :: 'u' :: 'e' :: rest2 => some (Json.bool true, rest2)
        | _ => none
      else if c = 'f' then
        match rest with
        | 'a' :: 'l' :: 's' :: 'e' :: rest2 => some (Json.bool false, rest2)
        | _ => none
      else if c = '"' then
        match parseStrBody rest with
        | some (s, rest2) => some (Json.str s, rest2)
        | none => none
      else if c = '[' then
        match skipWs rest with
        | ']' :: rest2 => some (Json.arr [], rest2)
        | _ =>
          match parseVal fuel rest with
          | some (v, r) =>
            match parseArrRest fuel r with
            | some (vs, r2) => some (Json.arr (v :: vs), r2)
            | none => none
          | none => none
      else if c = lbrace then
        match skipWs rest with
        | d :: rest2 =>
          if d = rbrace then some (Json.obj [], rest2)
          else
            match parseMember fuel (d :: rest2) with
            | some (kv, r) =>
              match parseObjRest fuel r with
              | some (kvs, r2) => some (Json.obj (kv :: kvs), r2)
              | none => none
            | none => none
        | [] => none
      else if c = '-' || c.isDigit then
        match parseNumber (c :: rest) with
        | some (lit, rest2) => some (Json.num lit, rest2)
        | none => none
      else none

/-- Parse the remaining elements of a JSON array after the first one:
a possibly empty sequence of comma-separated values and the closing
bracket. -/
def parseArrRest : Nat → List Char → Option (List Json × List Char)
  | 0, _ => none
  | Nat.succ fuel, cs =>
    match skipWs cs with
    | ',' :: rest =>
      match parseVal fuel rest with
      | some (v, r) =>
        match parseArrRest fuel r with
        | some (vs, r2) => some (v :: vs, r2)
        | none => none
      | none => none
    | ']' :: rest => some ([], rest)
    | _ => none

/-- Parse one object member: a quoted key, a colon, and a value. -/
def parseMember : Nat → List Char → Option ((String × Json) × List Char)
  | 0, _ => none
  | Nat.succ fuel, cs =>
    match skipWs cs with
    | '"' :: rest =>
      match parseStrBody rest with
      | some (k, r) =>
        match skipWs r with
        | ':' :: r2 =>
          match parseVal fuel r2 with
          | some (v, r3) => some ((k, v), r3)
          | none => none
        | _ => none
      | none => none
    | _ => none

/-- Parse the remaining members of a JSON object after the first one. -/
def parseObjRest : Nat → List Char → Option (List (String × Json) × List Char)
  | 0, _ => none
  | Nat.succ fuel, cs =>
    match skipWs cs with
    | ',' :: rest =>
      match parseMember fuel rest with
      | some (kv, r) =>
        match parseObjRest fuel r with
        | some (kvs, r2) => some (kv :: kvs, r2)
        | none => none
      | none => none
    | d :: rest =>
      if d = rbrace then some ([], rest) else none
    | [] => none

end

/-- Model of `JSON.parse`: parse a complete JSON text, rejecting leftover
non-whitespace input (as `JSON.parse` does). -/
def jsonParse (s : String) : Option Json :=
  match parseVal (s.length + 1) s.data with
  | some (j, rest) => if skipWs rest = [] then some j else none
  | none => none

/-- Error kinds thrown by the translation path: `parseError` models a
`SyntaxError` thrown by `JSON.parse`, `validationError` the explicit
`throw new Error("Plot data must be an array")`. -/
inductive TransError where
  | parseError (msg : String)
  | validationError (msg : String)
deriving DecidableEq

/-- The `message` property of the thrown error. -/
def TransError.message : TransError → String
  | TransError.parseError m => m
  | TransError.validationError m => m

/-- Modelled from the spec: the engine-specific text of the `SyntaxError`
that `JSON.parse` throws on malformed input (the spec only requires that
some string is surfaced). -/
def jsonSyntaxErrMsg : String := "Unexpected token in JSON"

/-- Model of `JSON.parse` as a fallible computation. -/
def jsonParseE (s : String) : Except TransError Json :=
  match jsonParse s with
  | some j => Except.ok j
  | none => Except.error (TransError.parseError jsonSyntaxErrMsg)

/-- The serialized message definition for a Plotly plot (src/messages.ts):
both `data` and `layout` are serialized JSON strings. -/
structure PlotlyPlot where
  data : String
  layout : String
deriving DecidableEq

/-- The parsed message definition for a Plotly plot: `data` is an array of
Plotly data objects and `layout` is a Plotly layout object. -/
structure PlotlyPlotParsed where
  data : List Json
  layout : Json

/-- Translator (`ParsePlotlyMessage`, src/messages.ts lines 36-47): decode
the `data` and `layout` JSON fields in that order (empty strings default
to `[]` and an empty object respectively), propagating a thrown
`SyntaxError`, then reject a non-array `data`. -/
def ParsePlotlyMessage (message : PlotlyPlot) : Except TransError PlotlyPlotParsed :=
  match (if message.data.length > 0 then jsonParseE message.data else Except.ok (Json.arr [])) with
  | Except.error e => Except.error e
  | Except.ok data =>
    match (if message.layout.length > 0 then jsonParseE message.layout
           else Except.ok (Json.obj [])) with
    | Except.error e => Except.error e
    | Except.ok layout =>
      match data with
      | Json.arr elems => Except.ok ⟨elems, layout⟩
      | _ => Except.error (TransError.validationError "Plot data must be an array")

/-- A message receipt time (host messaging-system timestamp). -/
structure Time where
  sec : Nat
  nsec : Nat
deriving DecidableEq

/-- Model of `isGreaterThan` from the external rostime library:
lexicographic comparison of seconds then nanoseconds. -/
def isGreaterThan (a b : Time) : Bool :=
  a.sec > b.sec || (a.sec == b.sec && a.nsec > b.nsec)

/-- A message event delivered by the host: a receipt time and a payload. -/
structure MessageEvent (α : Type) where
  receiveTime : Time
  message : α
deriving DecidableEq

/-- The payload of the alternate (std_msgs/String) message schema. -/
structure StringMessage where
  data : String
deriving DecidableEq

/-- Latest-message Selector of the std_msgs/String variant (src/index.ts
lines 296-314): clear the selection when no topic is selected; keep it
when the frame is absent or empty; otherwise take the last message of the
frame exactly when there is no previous selection or its receipt time is
strictly greater than the previous one's. -/
def selectLatestString (topicName : Option String)
    (messages : Option (List (MessageEvent StringMessage)))
    (latestMessage : Option (MessageEvent StringMessage)) :
    Option (MessageEvent StringMessage) :=
  match topicName with
  | none => none
  | some _ =>
    match messages with
    | none => latestMessage
    | some ms =>
      match ms.getLast? with
      | none => latestMessage
      | some curLatest =>
        match latestMessage with
        | none => some curLatest
        | some prev =>
          if isGreaterThan curLatest.receiveTime prev.receiveTime then some curLatest
          else some prev

/-- Latest-message Selector of the plotly.Plot variant (src/index.ts lines
114-128): clear the selection when no topic is selected; keep it when the
frame is absent or empty; otherwise always take the last message of the
frame. -/
def selectLatestPlot (topicName : Option String)
    (messages : Option (List (MessageEvent PlotlyPlot)))
    (latestMessage : Option (MessageEvent PlotlyPlot)) :
    Option (MessageEvent PlotlyPlot) :=
  match topicName with
  | none => none
  | some _ =>
    match messages with
    | none => latestMessage
    | some ms =>
      match ms.getLast? with
      | none => latestMessage
      | some curLatest => some curLatest

/-- A JavaScript value stored in an object property: either `undefined`
or a JSON value. -/
inductive JVal where
  | undef
  | val (j : Json)

/-- A JavaScript property assignment `o[k] = v` on an object modelled as
an association list: replace the binding in place or append a new one. -/
def setProp : List (String × JVal) → String → JVal → List (String × JVal)
  | [], k, v => [(k, v)]
  | (k', v') :: rest, k, v =>
    if k' = k then (k, v) :: rest else (k', v') :: setProp rest k v

/-- Modelled from the spec: `DARK_TEMPLATE` lives in src/templates.ts,
which is not among the sources; the spec describes it as a fixed dark-mode
template, a predefined set of color/style tokens overlaid atop the
author-specified layout. -/
def DARK_TEMPLATE : Json :=
  Json.obj [("layout", Json.obj
    [("paper_bgcolor", Json.str "#121217"),
     ("plot_bgcolor", Json.str "#121217"),
     ("font", Json.obj [("color", Json.str "#f7f7f3")])])]

/-- The host theme. -/
inductive ColorScheme where
  | light
  | dark
deriving DecidableEq

/-- Layout merge of the plotly.Plot variant (src/index.ts lines 158-163):
start from the author layout object (an empty object when no parsed
message exists), force `autosize` to `true`, and set `template` to the
dark template when the scheme is dark and to `undefined` otherwise. -/
def layoutMergePlot (author : List (String × Json)) (colorScheme : ColorScheme) :
    List (String × JVal) :=
  let output := author.map (fun kv => (kv.1, JVal.val kv.2))
  let output := setProp output "autosize" (JVal.val (Json.bool true))
  setProp output "template"
    (match colorScheme with
     | ColorScheme.dark => JVal.val DARK_TEMPLATE
     | ColorScheme.light => JVal.undef)

/-- Plot layout of the std_msgs/String variant (src/index.ts lines
347-352): a fresh object with `autosize: true` and the theme-dependent
`template`. -/
def plotLayoutString (colorScheme : ColorScheme) : List (String × JVal) :=
  [("autosize", JVal.val (Json.bool true)),
   ("template",
    match colorScheme with
    | ColorScheme.dark => JVal.val DARK_TEMPLATE
    | ColorScheme.light => JVal.undef)]

/-- The observable outcome of one memoized translation step: the computed
value and the `setErrorMessage` call it makes, if any (`none` when the
error state is left untouched). -/
structure MemoOut (α : Type) where
  result : α
  errorUpdate : Option (Option String)

/-- The plotly.Plot variant's `plotMessage` memo (src/index.ts lines
131-151): parse the latest message inside try/catch, clearing the error
message on success and surfacing the error text on failure. -/
def plotMessageMemo (latestMessage : Option (MessageEvent PlotlyPlot)) :
    MemoOut (Option PlotlyPlotParsed) :=
  match latestMessage with
  | none => ⟨none, none⟩
  | some m =>
    match ParsePlotlyMessage m.message with
    | Except.ok parsed => ⟨some parsed, some none⟩
    | Except.error err =>
      ⟨none, some (some ("Failed to parse: " ++ err.message))⟩

/-- The plotly.Plot variant's `data` memo (src/index.ts line 154): the
parsed data array, or an empty array when there is no parsed message. -/
def dataMemoPlot (plotMessage : Option PlotlyPlotParsed) : List Json :=
  match plotMessage with
  | some p => p.data
  | none => []

/-- The std_msgs/String variant's `plotData` memo (src/index.ts lines
317-344): parse the latest message's string payload inside try/catch,
rejecting non-arrays, always yielding an array. -/
def plotDataMemo (latestMessage : Option (MessageEvent StringMessage)) :
    MemoOut (List Json) :=
  match latestMessage with
  | none => ⟨[], none⟩
  | some m =>
    match jsonParse m.message.data with
    | none => ⟨[], some (some ("Failed to parse JSON: " ++ jsonSyntaxErrMsg))⟩
    | some json =>
      match json with
      | Json.arr elems => ⟨elems, some none⟩
      | _ => ⟨[], some (some "JSON is not an array")⟩

/-- A topic from the host's catalog. -/
structure Topic where
  name : String
  schemaName : String
deriving DecidableEq

/-- Recognized schema names for a Plotly plot message (src/messages.ts). -/
def PlotlyPlotSchemaNames : List String :=
  ["plotly_msgs/Plot", "plotly_msgs/msg/Plot", "plotly.Plot"]

/-- Recognized schema names of the std_msgs/String variant
(src/index.ts line 203). -/
def VALID_DATATYPES : List String :=
  ["std_msgs/String", "std_msgs.String"]

/-- The `validTopicNames` memo shared by both variants (src/index.ts lines
52-64 and 235-247): filter the catalog by the schema allow-list, keep the
names, and force-add a truthy (non-empty) selected topic name at the top
when the filtered list misses it. -/
def validTopicNamesWith (schemaNames : List String) (topics : Option (List Topic))
    (topicName : Option String) : List String :=
  match topics with
  | none => []
  | some ts =>
    let output := (ts.filter (fun t => schemaNames.contains t.schemaName)).map
      (fun t => t.name)
    match topicName with
    | none => output
    | some n => if n ≠ "" && !(output.contains n) then n :: output else output

/-- The plotly.Plot variant's valid-topic-name list. -/
def validTopicNamesPlot (topics : Option (List Topic)) (topicName : Option String) :
    List String :=
  validTopicNamesWith PlotlyPlotSchemaNames topics topicName

/-- The std_msgs/String variant's valid-topic-name list. -/
def validTopicNamesString (topics : Option (List Topic)) (topicName : Option String) :
    List String :=
  validTopicNamesWith VALID_DATATYPES topics topicName

/-- A JavaScript property read `o[k]` on an object modelled as an
association list. -/
def getProp {β : Type} : List (String × β) → String → Option β
  | [], _ => none
  | (k', v) :: rest, k => if k' = k then some v else getProp rest k

/-- Whether the Translator fails with the validation (non-array data)
error on a given message. -/
def failsWithValidation (m : PlotlyPlot) : Bool :=
  match ParsePlotlyMessage m with
  | Except.error (TransError.validationError _) => true
  | _ => false

theorem getProp_setProp_self (o : List (String × JVal)) (k : String) (v : JVal) :
    getProp (setProp o k v) k = some v := by
  induction o with
  | nil => simp [setProp, getProp]
  | cons kv rest ih =>
    obtain ⟨k', v'⟩ := kv
    by_cases h : k' = k
    · simp [setProp, getProp, h]
    · simp [setProp, getProp, h, ih]

theorem getProp_setProp_ne (o : List (String × JVal)) (k k' : String) (v : JVal)
    (h : k ≠ k') : getProp (setProp o k' v) k = getProp o k := by
  have h' : ¬k' = k := fun hc => h hc.symm
  induction o with
  | nil => simp [setProp, getProp, h']
  | cons kv rest ih =>
    obtain ⟨k0, v0⟩ := kv
    by_cases h0 : k0 = k'
    · subst h0
      simp [setProp, getProp, h']
    · by_cases h1 : k0 = k
      · simp [setProp, getProp, h0, h1, h]
      · simp [setProp, getProp, h0, h1, ih]

theorem getProp_map_val (o : List (String × Json)) (k : String) :
    getProp (o.map (fun kv => (kv.1, JVal.val kv.2))) k =
      (getProp o k).map JVal.val := by
  induction o with
  | nil => simp [getProp]
  | cons kv rest ih =>
    obtain ⟨k', v'⟩ := kv
    by_cases h : k' = k
    · simp [getProp, h]
    · simp [getProp, h, ih]

theorem string_of_length_zero {s : String} (h : s.length = 0) : s = "" := by
  cases s with
  | mk data =>
    cases data with
    | nil => rfl
    | cons c rest => simp [String.length] at h

theorem jsonParse_empty : jsonParse "" = none := rfl

theorem string_length_pos_of_parse {s : String} {v : Json}
    (h : jsonParse s = some v) : s.length > 0 := by
  by_contra hlen
  have h0 : s.length = 0 := Nat.eq_zero_of_not_pos hlen
  rw [string_of_length_zero h0] at h
  rw [jsonParse_empty] at h
  exact Option.noConfusion h

theorem isGreaterThan_irrefl (a : Time) : isGreaterThan a a = false := by
  simp [isGreaterThan]

theorem string_length_pos_of_ne {s : String} (h : s ≠ "") : s.length > 0 := by
  by_contra hlen
  exact h (string_of_length_zero (Nat.eq_zero_of_not_pos hlen))

/-- C4: for the message whose `data` and `layout` fields are both empty
strings, the Translator succeeds with an empty series array and an empty
layout object, raising no error. -/
theorem claim_C4_empty_fields_default :
    ParsePlotlyMessage ⟨"", ""⟩ = Except.ok ⟨[], Json.obj []⟩ := rfl

/-- C3: whenever at least one of the two fields is a non-empty string
that is not syntactically valid JSON, the Translator fails with a
`ParseError` (it throws rather than returning a parsed spec). -/
theorem claim_C3_malformed_json_parse_error (m : PlotlyPlot)
    (h : (m.data ≠ "" ∧ jsonParse m.data = none)
       ∨ (m.layout ≠ "" ∧ jsonParse m.layout = none)) :
    ParsePlotlyMessage m = Except.error (TransError.parseError jsonSyntaxErrMsg) := by
  rcases h with ⟨hne, hnone⟩ | ⟨hne, hnone⟩
  · have hlen := string_length_pos_of_ne hne
    simp [ParsePlotlyMessage, hlen, jsonParseE, hnone]
  · have hlen := string_length_pos_of_ne hne
    by_cases hd : m.data.length > 0
    · cases hjd : jsonParse m.data with
      | none => simp [ParsePlotlyMessage, hd, jsonParseE, hjd]
      | some v => simp [ParsePlotlyMessage, hd, jsonParseE, hjd, hlen, hnone]
    · simp [ParsePlotlyMessage, hd, hlen, jsonParseE, hnone]

theorem claim_C3_witness :
    (("\x7b" : String) ≠ "" ∧ jsonParse "\x7b" = none)
    ∧ ParsePlotlyMessage ⟨"\x7b", ""⟩
        = Except.error (TransError.parseError jsonSyntaxErrMsg) :=
  ⟨⟨by decide, rfl⟩, claim_C3_malformed_json_parse_error ⟨"\x7b", ""⟩ (Or.inl ⟨by decide, rfl⟩)⟩

/-- C9: when `layout` is valid JSON decoding to a non-object value and
`data` decodes to an array, the Translator succeeds and returns the
decoded layout value unchanged; no shape validation is applied to it. -/
theorem claim_C9_layout_not_validated (m : PlotlyPlot) (elems : List Json) (w : Json)
    (hd : jsonParse m.data = some (Json.arr elems))
    (hl : jsonParse m.layout = some w) (hw : w.isObj = false) :
    ParsePlotlyMessage m = Except.ok ⟨elems, w⟩ := by
  have hlen := string_length_pos_of_parse hd
  have hlp := string_length_pos_of_parse hl
  simp [ParsePlotlyMessage, hlen, hlp, jsonParseE, hd, hl]

theorem claim_C9_witness :
    jsonParse "[]" = some (Json.arr []) ∧ jsonParse "5" = some (Json.num "5")
    ∧ (Json.num "5").isObj = false
    ∧ ParsePlotlyMessage ⟨"[]", "5"⟩ = Except.ok ⟨[], Json.num "5"⟩ :=
  ⟨rfl, rfl, rfl, claim_C9_layout_not_validated ⟨"[]", "5"⟩ [] (Json.num "5") rfl rfl rfl⟩

/-- C1 counterexample: in the plotly.Plot variant, an incoming message
whose receipt time equals the previous selection's (a tie) still replaces
the selection, so the claim's tie-keeps-previous policy does not hold for
that variant. -/
theorem claim_C1_counterexample :
    (⟨⟨5, 0⟩, ⟨"[1]", ""⟩⟩ : MessageEvent PlotlyPlot).receiveTime
        = (⟨⟨5, 0⟩, ⟨"[]", ""⟩⟩ : MessageEvent PlotlyPlot).receiveTime
    ∧ selectLatestPlot (some "t") (some [⟨⟨5, 0⟩, ⟨"[1]", ""⟩⟩])
        (some ⟨⟨5, 0⟩, ⟨"[]", ""⟩⟩) = some ⟨⟨5, 0⟩, ⟨"[1]", ""⟩⟩
    ∧ selectLatestPlot (some "t") (some [⟨⟨5, 0⟩, ⟨"[1]", ""⟩⟩])
        (some ⟨⟨5, 0⟩, ⟨"[]", ""⟩⟩) ≠ some ⟨⟨5, 0⟩, ⟨"[]", ""⟩⟩ := by
  refine ⟨rfl, rfl, ?_⟩
  decide

/-- C1 (amended): the std_msgs/String variant Selector replaces the
selection with the last message of a non-empty frame exactly when no
previous selection exists or that message's receipt time is strictly
greater; ties keep the previous selection.  The plotly.Plot variant
always takes the last message of a non-empty frame. -/
theorem claim_C1_selector_policies (t : String) (ms : List (MessageEvent StringMessage))
    (cur : MessageEvent StringMessage) (h : ms.getLast? = some cur)
    (p : MessageEvent StringMessage) :
    selectLatestString (some t) (some ms) none = some cur
    ∧ (isGreaterThan cur.receiveTime p.receiveTime = true →
        selectLatestString (some t) (some ms) (some p) = some cur)
    ∧ (isGreaterThan cur.receiveTime p.receiveTime = false →
        selectLatestString (some t) (some ms) (some p) = some p)
    ∧ (cur.receiveTime = p.receiveTime →
        selectLatestString (some t) (some ms) (some p) = some p)
    ∧ (∀ (msP : List (MessageEvent PlotlyPlot)) (curP : MessageEvent PlotlyPlot),
        msP.getLast? = some curP →
        ∀ prevP : Option (MessageEvent PlotlyPlot),
          selectLatestPlot (some t) (some msP) prevP = some curP) := by
  refine ⟨?_, ?_, ?_, ?_, ?_⟩
  · simp [selectLatestString, h]
  · intro hgt
    simp [selectLatestString, h, hgt]
  · intro hgt
    simp [selectLatestString, h, hgt]
  · intro heq
    simp [selectLatestString, h, heq, isGreaterThan_irrefl]
  · intro msP curP hP prevP
    cases prevP <;> simp [selectLatestPlot, hP]

theorem claim_C1_witness :
    ([⟨⟨2, 0⟩, ⟨"x"⟩⟩] : List (MessageEvent StringMessage)).getLast?
        = some ⟨⟨2, 0⟩, ⟨"x"⟩⟩
    ∧ isGreaterThan (Time.mk 2 0) (Time.mk 1 0) = true
    ∧ selectLatestString (some "t") (some [⟨⟨2, 0⟩, ⟨"x"⟩⟩]) (some ⟨⟨1, 0⟩, ⟨"y"⟩⟩)
        = some ⟨⟨2, 0⟩, ⟨"x"⟩⟩
    ∧ selectLatestString (some "t") (some [⟨⟨2, 0⟩, ⟨"x"⟩⟩]) (some ⟨⟨2, 0⟩, ⟨"z"⟩⟩)
        = some ⟨⟨2, 0⟩, ⟨"z"⟩⟩ :=
  ⟨by decide, by decide,
   (claim_C1_selector_policies "t" [⟨⟨2, 0⟩, ⟨"x"⟩⟩] ⟨⟨2, 0⟩, ⟨"x"⟩⟩ (by decide)
      ⟨⟨1, 0⟩, ⟨"y"⟩⟩).2.1 (by decide),
   (claim_C1_selector_policies "t" [⟨⟨2, 0⟩, ⟨"x"⟩⟩] ⟨⟨2, 0⟩, ⟨"x"⟩⟩ (by decide)
      ⟨⟨2, 0⟩, ⟨"z"⟩⟩).2.2.2.1 rfl⟩

/-- C2 counterexample: with `data = "\x7b\x7d"` (valid JSON, a non-array)
and a malformed `layout = "\x7b"`, the Translator fails with a
`ParseError`, not the claimed `ValidationError`, because the layout field
is decoded before the array check runs. -/
theorem claim_C2_counterexample :
    jsonParse "\x7b\x7d" = some (Json.obj [])
    ∧ (Json.obj []).isArr = false
    ∧ ParsePlotlyMessage ⟨"\x7b\x7d", "\x7b"⟩
        = Except.error (TransError.parseError jsonSyntaxErrMsg)
    ∧ failsWithValidation ⟨"\x7b\x7d", "\x7b"⟩ = false :=
  ⟨rfl, rfl, rfl, rfl⟩

/-- C2 (amended): when `data` is valid JSON decoding to a non-array and
`layout` is empty or valid JSON, the Translator fails with a
`ValidationError`; whatever the layout field holds, it never returns a
parsed spec when `data` decodes to a non-array. -/
theorem claim_C2_nonarray_validation (m : PlotlyPlot) (v : Json)
    (hd : jsonParse m.data = some v) (hv : v.isArr = false) :
    ((m.layout = "" ∨ ∃ w, jsonParse m.layout = some w) →
      ParsePlotlyMessage m
        = Except.error (TransError.validationError "Plot data must be an array"))
    ∧ ∀ p, ParsePlotlyMessage m ≠ Except.ok p := by
  have hlen := string_length_pos_of_parse hd
  constructor
  · intro hl
    rcases hl with hl | ⟨w, hw⟩
    · have h0 : m.layout.length = 0 := by rw [hl]; rfl
      have h0' : ¬m.layout.length > 0 := by omega
      simp [ParsePlotlyMessage, hlen, jsonParseE, hd, h0']
      cases v <;> simp_all [Json.isArr]
    · have hlp := string_length_pos_of_parse hw
      simp [ParsePlotlyMessage, hlen, jsonParseE, hd, hlp, hw]
      cases v <;> simp_all [Json.isArr]
  · intro p
    by_cases hlp : m.layout.length > 0
    · cases hjl : jsonParse m.layout with
      | none => simp [ParsePlotlyMessage, hlen, jsonParseE, hd, hlp, hjl]
      | some w =>
        simp [ParsePlotlyMessage, hlen, jsonParseE, hd, hlp, hjl]
        cases v <;> simp_all [Json.isArr]
    · simp [ParsePlotlyMessage, hlen, jsonParseE, hd, hlp]
      cases v <;> simp_all [Json.isArr]

theorem claim_C2_witness :
    jsonParse "\x7b\x7d" = some (Json.obj []) ∧ (Json.obj []).isArr = false
    ∧ ParsePlotlyMessage ⟨"\x7b\x7d", ""⟩
        = Except.error (TransError.validationError "Plot data must be an array") :=
  ⟨rfl, rfl,
   (claim_C2_nonarray_validation ⟨"\x7b\x7d", ""⟩ (Json.obj []) rfl rfl).1 (Or.inl rfl)⟩

/-- C7: when no topic is selected, both variants' Selectors clear the
selection, regardless of the previous selection and the frame. -/
theorem claim_C7_no_topic_clears_selection
    (messagesS : Option (List (MessageEvent StringMessage)))
    (latestS : Option (MessageEvent StringMessage))
    (messagesP : Option (List (MessageEvent PlotlyPlot)))
    (latestP : Option (MessageEvent PlotlyPlot)) :
    selectLatestString none messagesS latestS = none
    ∧ selectLatestPlot none messagesP latestP = none :=
  ⟨rfl, rfl⟩

/-- C5 counterexample: in light mode the plotly.Plot variant's layout
merge overwrites an author-specified `template` field with `undefined`
instead of leaving it unchanged. -/
theorem claim_C5_counterexample :
    getProp (layoutMergePlot [("template", Json.str "custom")] ColorScheme.light) "template"
        = some JVal.undef
    ∧ getProp (layoutMergePlot [("template", Json.str "custom")] ColorScheme.light) "template"
        ≠ some (JVal.val (Json.str "custom")) := by
  refine ⟨rfl, ?_⟩
  intro hc
  have h1 : getProp (layoutMergePlot [("template", Json.str "custom")] ColorScheme.light)
      "template" = some JVal.undef := rfl
  rw [h1] at hc
  injection hc with h2
  exact JVal.noConfusion h2

/-- C5 (amended): in light mode the merge applies no dark template, but it
still writes the `template` field, setting it to `undefined` (erasing any
author-specified template); every field other than `autosize` and
`template` passes through unchanged. -/
theorem claim_C5_light_mode_merge (author : List (String × Json)) (k : String)
    (h1 : k ≠ "autosize") (h2 : k ≠ "template") :
    getProp (layoutMergePlot author ColorScheme.light) k = (getProp author k).map JVal.val
    ∧ getProp (layoutMergePlot author ColorScheme.light) "template" = some JVal.undef := by
  have e : layoutMergePlot author ColorScheme.light =
      setProp (setProp (author.map fun kv => (kv.1, JVal.val kv.2)) "autosize"
        (JVal.val (Json.bool true))) "template" JVal.undef := rfl
  constructor
  · rw [e, getProp_setProp_ne _ _ _ _ h2, getProp_setProp_ne _ _ _ _ h1, getProp_map_val]
  · rw [e]
    exact getProp_setProp_self _ _ _

theorem claim_C5_witness :
    (("title" : String) ≠ "autosize") ∧ (("title" : String) ≠ "template")
    ∧ getProp (layoutMergePlot [("title", Json.str "T")] ColorScheme.light) "title"
        = some (JVal.val (Json.str "T")) :=
  ⟨by decide, by decide,
   by
    have h := claim_C5_light_mode_merge [("title", Json.str "T")] "title"
      (by decide) (by decide)
    rw [h.1]
    rfl⟩

/-- C6: for every author layout object and theme, both variants' layouts
have `autosize = true`, and the `template` field holds a value exactly
when the theme is dark, in which case it is the fixed dark template. -/
theorem claim_C6_autosize_and_template (author : List (String × Json))
    (scheme : ColorScheme) :
    getProp (layoutMergePlot author scheme) "autosize" = some (JVal.val (Json.bool true))
    ∧ getProp (plotLayoutString scheme) "autosize" = some (JVal.val (Json.bool true))
    ∧ ((∃ t, getProp (layoutMergePlot author scheme) "template" = some (JVal.val t))
        ↔ scheme = ColorScheme.dark)
    ∧ ((∃ t, getProp (plotLayoutString scheme) "template" = some (JVal.val t))
        ↔ scheme = ColorScheme.dark)
    ∧ (scheme = ColorScheme.dark →
        getProp (layoutMergePlot author scheme) "template" = some (JVal.val DARK_TEMPLATE)
        ∧ getProp (plotLayoutString scheme) "template" = some (JVal.val DARK_TEMPLATE)) := by
  have hne : ("autosize" : String) ≠ "template" := by decide
  cases scheme with
  | light =>
    have e : layoutMergePlot author ColorScheme.light =
        setProp (setProp (author.map fun kv => (kv.1, JVal.val kv.2)) "autosize"
          (JVal.val (Json.bool true))) "template" JVal.undef := rfl
    refine ⟨?_, rfl, ?_, ?_, ?_⟩
    · rw [e, getProp_setProp_ne _ _ _ _ hne]
      exact getProp_setProp_self _ _ _
    · constructor
      · intro ht
        obtain ⟨t, ht⟩ := ht
        rw [e, getProp_setProp_self] at ht
        injection ht with ht2
        exact JVal.noConfusion ht2
      · intro hc
        exact ColorScheme.noConfusion hc
    · constructor
      · intro ht
        obtain ⟨t, ht⟩ := ht
        have hu : getProp (plotLayoutString ColorScheme.light) "template"
            = some JVal.undef := rfl
        rw [hu] at ht
        injection ht with ht2
        exact JVal.noConfusion ht2
      · intro hc
        exact ColorScheme.noConfusion hc
    · intro hc
      exact ColorScheme.noConfusion hc
  | dark =>
    have e : layoutMergePlot author ColorScheme.dark =
        setProp (setProp (author.map fun kv => (kv.1, JVal.val kv.2)) "autosize"
          (JVal.val (Json.bool true))) "template" (JVal.val DARK_TEMPLATE) := rfl
    have htempl : getProp (layoutMergePlot author ColorScheme.dark) "template"
        = some (JVal.val DARK_TEMPLATE) := by
      rw [e]
      exact getProp_setProp_self _ _ _
    refine ⟨?_, rfl, ?_, ?_, ?_⟩
    · rw [e, getProp_setProp_ne _ _ _ _ hne]
      exact getProp_setProp_self _ _ _
    · exact ⟨fun _ => rfl, fun _ => ⟨DARK_TEMPLATE, htempl⟩⟩
    · exact ⟨fun _ => rfl, fun _ => ⟨DARK_TEMPLATE, rfl⟩⟩
    · intro _
      exact ⟨htempl, rfl⟩

theorem claim_C6_witness :
    getProp (layoutMergePlot [("autosize", Json.bool false)] ColorScheme.dark) "autosize"
        = some (JVal.val (Json.bool true))
    ∧ getProp (layoutMergePlot [] ColorScheme.dark) "template"
        = some (JVal.val DARK_TEMPLATE)
    ∧ getProp (plotLayoutString ColorScheme.dark) "template"
        = some (JVal.val DARK_TEMPLATE) :=
  ⟨(claim_C6_autosize_and_template [("autosize", Json.bool false)] ColorScheme.dark).1,
   ((claim_C6_autosize_and_template [] ColorScheme.dark).2.2.2.2 rfl).1,
   ((claim_C6_autosize_and_template [] ColorScheme.dark).2.2.2.2 rfl).2⟩

/-- C8: both variants' translation memos are total over all messages:
a parse or validation failure is caught, surfaced as a string into the
error field, and the step still yields a renderable (empty or absent)
result instead of propagating the exception. -/
theorem claim_C8_errors_recovered (mp : MessageEvent PlotlyPlot)
    (ms : MessageEvent StringMessage) :
    (∀ e, ParsePlotlyMessage mp.message = Except.error e →
      (plotMessageMemo (some mp)).result = none
      ∧ dataMemoPlot (plotMessageMemo (some mp)).result = []
      ∧ (plotMessageMemo (some mp)).errorUpdate
          = some (some ("Failed to parse: " ++ e.message)))
    ∧ (jsonParse ms.message.data = none →
      (plotDataMemo (some ms)).result = []
      ∧ (plotDataMemo (some ms)).errorUpdate
          = some (some ("Failed to parse JSON: " ++ jsonSyntaxErrMsg)))
    ∧ (∀ j, jsonParse ms.message.data = some j → j.isArr = false →
      (plotDataMemo (some ms)).result = []
      ∧ (plotDataMemo (some ms)).errorUpdate = some (some "JSON is not an array")) := by
  refine ⟨?_, ?_, ?_⟩
  · intro e he
    simp [plotMessageMemo, dataMemoPlot, he]
  · intro hn
    simp [plotDataMemo, hn]
  · intro j hj hja
    cases j <;> simp_all [plotDataMemo, Json.isArr]

theorem claim_C8_witness :
    ParsePlotlyMessage (⟨"\x7b", ""⟩ : PlotlyPlot)
        = Except.error (TransError.parseError jsonSyntaxErrMsg)
    ∧ (plotMessageMemo (some ⟨⟨0, 0⟩, ⟨"\x7b", ""⟩⟩)).result = none
    ∧ (plotMessageMemo (some ⟨⟨0, 0⟩, ⟨"\x7b", ""⟩⟩)).errorUpdate
        = some (some ("Failed to parse: " ++ jsonSyntaxErrMsg))
    ∧ (plotDataMemo (some ⟨⟨0, 0⟩, ⟨"\x7b"⟩⟩)).result = []
    ∧ (plotDataMemo (some ⟨⟨0, 0⟩, ⟨"\x7b"⟩⟩)).errorUpdate
        = some (some ("Failed to parse JSON: " ++ jsonSyntaxErrMsg)) := by
  have h := claim_C8_errors_recovered ⟨⟨0, 0⟩, ⟨"\x7b", ""⟩⟩ ⟨⟨0, 0⟩, ⟨"\x7b"⟩⟩
  have h1 := h.1 (TransError.parseError jsonSyntaxErrMsg) rfl
  have h2 := h.2.1 rfl
  exact ⟨rfl, h1.1, h1.2.2, h2.1, h2.2⟩

theorem mem_validTopicNamesWith (schemaNames : List String) (ts : List Topic)
    (n : String) (h : n ≠ "") :
    n ∈ validTopicNamesWith schemaNames (some ts) (some n) := by
  simp only [validTopicNamesWith]
  split
  · exact List.mem_cons_self n _
  · rename_i hcond
    have hc : ((ts.filter fun t => schemaNames.contains t.schemaName).map
        fun t => t.name).contains n = true := by
      by_contra hb
      rw [Bool.not_eq_true] at hb
      exact hcond (by rw [hb]; simp [h])
    exact List.mem_of_elem_eq_true hc

/-- C10: for every topic catalog and non-empty selected topic name, the
computed autocomplete list of both variants contains the selected name:
when the schema-filtered list misses it, it is prepended. -/
theorem claim_C10_selected_topic_listed (ts : List Topic) (n : String) (h : n ≠ "") :
    n ∈ validTopicNamesPlot (some ts) (some n)
    ∧ n ∈ validTopicNamesString (some ts) (some n) :=
  ⟨mem_validTopicNamesWith PlotlyPlotSchemaNames ts n h,
   mem_validTopicNamesWith VALID_DATATYPES ts n h⟩

theorem claim_C10_witness :
    (("t" : String) ≠ "")
    ∧ "t" ∈ validTopicNamesPlot (some [⟨"other", "foo/Bar"⟩]) (some "t")
    ∧ "t" ∈ validTopicNamesString (some [⟨"other", "foo/Bar"⟩]) (some "t") :=
  ⟨by decide,
   (claim_C10_selected_topic_listed [⟨"other", "foo/Bar"⟩] "t" (by decide)).1,
   (claim_C10_selected_topic_listed [⟨"other", "foo/Bar"⟩] "t" (by decide)).2⟩
